import Mathlib

/-!
Verification of the DQN agent wiring in `acme/agents/jax/dqn/agent.py`.

The file under verification is configuration/composition code: a dataclass of
hyperparameters (`DQNConfig`), a primary constructor (`DQNFromConfig.__init__`)
that wires a prioritized replay buffer, an optimizer, a learner and an
epsilon-greedy actor into a generic agent, and a legacy flat-keyword
constructor (`DQN.__init__`).

Embedding conventions:
- Python `int` is embedded as `Int` (arbitrary precision, possibly negative).
- Python `float` is embedded as `PyFloat`: either a rational value or the
  positive infinity `np.inf` (the default of `max_gradient_norm`).  Rounding of
  binary floating point is idealised away; the constants appearing in this file
  are compared as the rationals they denote.
- External library constructors (`replay.make_reverb_prioritized_nstep_replay`,
  `optax`, `DQNLearner`, `FeedForwardActor`, `VariableClient`, `PRNGSequence`)
  are opaque in the source file: they are embedded as records that store the
  arguments the wiring code passes to them.  Replay handles store the server
  record they are views of, mirroring that the replay construction returns a
  group of handles onto one server.
- `rlax.epsilon_greedy(ε).sample(key, action_values)` is external library code,
  modelled from the spec (see `epsilon_greedy_sample`).
-/

/-- A Python `float` as used by this file: a rational value, or `np.inf`
(the default of `DQNConfig.max_gradient_norm`).  Negative infinity and NaN do
not occur in the file and are not modelled. -/
inductive PyFloat where
  | val (q : ℚ)
  | inf
deriving DecidableEq

/-- Python `<` on the modelled floats: any finite value is below `inf`. -/
def PyFloat.lt : PyFloat → PyFloat → Bool
  | .val x, .val y => decide (x < y)
  | .val _, .inf => true
  | .inf, _ => false

/-- Python float division as used at `observations_per_step`
(`batch_size / samples_per_insert`).  Division of a finite value by zero raises
`ZeroDivisionError` in Python; the theorems about this operation therefore
assume a finite non-zero divisor, where Lean's total `ℚ` division agrees with
Python.  A finite value divided by `inf` is `0.0`. -/
def PyFloat.div : PyFloat → PyFloat → PyFloat
  | .val x, .val y => .val (x / y)
  | .val _, .inf => .val 0
  | .inf, _ => .inf

/-- `specs.EnvironmentSpec`: externally supplied, read-only.  Only its identity
and its `observations` component are consumed by the wiring code, so the two
shape descriptions are abstracted as opaque codes. -/
structure EnvironmentSpec where
  observations : Nat := 0
  actions : Nat := 0
deriving DecidableEq

/-- `hk.Transformed`: an externally supplied parameterized function.  The
wiring code only calls `network.apply(params, observation)`, producing the
vector of action values; parameters and observations are abstracted as
rational vectors. -/
structure Network where
  apply : List ℚ → List ℚ → List ℚ

/-- `hk.PRNGSequence(seed)`: a random-number sequence, recorded by the seed it
was initialized from. -/
structure PRNGSequence where
  seed : Int
deriving DecidableEq

/-- One draw from a `PRNGSequence`, as consumed by the sampling step of the
epsilon-greedy policy: `u` is the uniform draw in `[0, 1)` deciding whether to
explore, `r` determines the uniformly random action when exploring. -/
structure RNGKey where
  u : ℚ
  r : Nat
deriving DecidableEq

/-- `@dataclasses.dataclass class DQNConfig`: the flat hyperparameter record,
fields and defaults transcribed from the source (`0.05 = 1/20`, `0.5 = 1/2`,
`1e-3 = 1/1000`, `0.99 = 99/100`, `0.2 = 1/5`, `0.6 = 3/5`, `np.inf = inf`). -/
structure DQNConfig where
  epsilon : PyFloat := PyFloat.val (1/20)
  samples_per_insert : PyFloat := PyFloat.val (1/2)
  seed : Int := 1
  learning_rate : PyFloat := PyFloat.val (1/1000)
  discount : PyFloat := PyFloat.val (99/100)
  n_step : Int := 5
  target_update_period : Int := 100
  max_gradient_norm : PyFloat := PyFloat.inf
  batch_size : Int := 256
  min_replay_size : Int := 1000
  max_replay_size : Int := 1000000
  importance_sampling_exponent : PyFloat := PyFloat.val (1/5)
  priority_exponent : PyFloat := PyFloat.val (3/5)
  prefetch_size : Int := 4
deriving DecidableEq

/-- The `@dataclasses.dataclass` decorator on `DQNConfig` is applied with its
default arguments, so `frozen=False`: the generated class does not override
`__setattr__`, and attribute assignment on instances is permitted. -/
def DQNConfig.dataclass_frozen : Bool := false

/-- Python attribute assignment `config.epsilon = v`, available on a dataclass
exactly when it is not frozen (a frozen dataclass raises `FrozenInstanceError`,
modelled as `none`). -/
def DQNConfig.set_epsilon (c : DQNConfig) (v : PyFloat) : Option DQNConfig :=
  if DQNConfig.dataclass_frozen then none else some { c with epsilon := v }

/-- The reverb replay server, recorded with the arguments the wiring code
passes to `replay.make_reverb_prioritized_nstep_replay`. -/
structure ReplayServer where
  environment_spec : EnvironmentSpec
  n_step : Int
  batch_size : Int
  max_replay_size : Int
  min_replay_size : Int
  priority_exponent : PyFloat
  discount : PyFloat
deriving DecidableEq

/-- A replay client: a view onto one replay server. -/
structure ReplayClient where
  server : ReplayServer
deriving DecidableEq

/-- The batch iterator: a view onto one replay server. -/
structure DataIterator where
  server : ReplayServer
deriving DecidableEq

/-- The transition adder: a view onto one replay server. -/
structure Adder where
  server : ReplayServer
deriving DecidableEq

/-- The group of handles returned by
`replay.make_reverb_prioritized_nstep_replay`. -/
structure ReverbReplay where
  server : ReplayServer
  client : ReplayClient
  data_iterator : DataIterator
  adder : Adder
deriving DecidableEq

/-- `replay.make_reverb_prioritized_nstep_replay`: constructs one server and
returns it together with a client, a batch iterator and an adder, all views
onto that server. -/
def make_reverb_prioritized_nstep_replay (environment_spec : EnvironmentSpec)
    (n_step batch_size max_replay_size min_replay_size : Int)
    (priority_exponent discount : PyFloat) : ReverbReplay :=
  let server : ReplayServer := {
    environment_spec := environment_spec
    n_step := n_step
    batch_size := batch_size
    max_replay_size := max_replay_size
    min_replay_size := min_replay_size
    priority_exponent := priority_exponent
    discount := discount }
  { server := server
    client := { server := server }
    data_iterator := { server := server }
    adder := { server := server } }

/-- The symbolic optimizer expressions built by `optax` in this file:
`optax.chain` records its transformations in application order. -/
inductive Optimizer where
  | clip_by_global_norm (max_norm : PyFloat)
  | adam (learning_rate : PyFloat)
  | chain (ts : List Optimizer)

/-- `learning.DQNLearner(...)`: recorded with the keyword arguments the wiring
code passes to it. -/
structure DQNLearner where
  network : Network
  obs_spec : Nat
  rng : PRNGSequence
  optimizer : Optimizer
  discount : PyFloat
  importance_sampling_exponent : PyFloat
  target_update_period : Int
  iterator : DataIterator
  replay_client : ReplayClient

/-- `variable_utils.VariableClient(learner, '')`: the actor's only channel for
parameter updates, pointed at one learner. -/
structure VariableClient where
  learner : DQNLearner
  key : String

/-- The first maximum of a list of action values (`listMax []` is an arbitrary
default; it is only consulted on non-empty lists). -/
def listMax : List ℚ → ℚ
  | [] => 0
  | [x] => x
  | x :: y :: l => max x (listMax (y :: l))

/-- The index of the first maximal element, the semantics of `jnp.argmax` on a
non-empty vector of action values. -/
def listArgmax : List ℚ → Nat
  | [] => 0
  | x :: l => if l = [] ∨ listMax l ≤ x then 0 else listArgmax l + 1

/-- Modelled from the spec: `rlax.epsilon_greedy(ε).sample(key, action_values)`
is external library code (not in this repository's sources).  The spec's
glossary defines the epsilon-greedy policy as "action selection that picks the
best-known action with probability (1-epsilon) and a random action otherwise":
the key's uniform draw `u ∈ [0, 1)` decides exploration (`u < ε`), in which
case a uniformly random action index is chosen; otherwise the argmax of the
action values is selected. -/
def epsilon_greedy_sample (epsilon : PyFloat) (key : RNGKey)
    (action_values : List ℚ) : Nat :=
  if PyFloat.lt (PyFloat.val key.u) epsilon then key.r % action_values.length
  else listArgmax action_values

/-- `actors.FeedForwardActor(...)`: recorded with the keyword arguments the
wiring code passes to it. -/
structure FeedForwardActor where
  policy : List ℚ → RNGKey → List ℚ → Nat
  rng : PRNGSequence
  variable_client : VariableClient
  adder : Adder

/-- The assembled agent: the fields handed to the generic `agent.Agent` base
(`actor`, `learner`, `min_observations`, `observations_per_step`) together
with the replay server the subclass keeps in `self._server`. -/
structure DQNAgent where
  server : ReplayServer
  actor : FeedForwardActor
  learner : DQNLearner
  min_observations : Int
  observations_per_step : PyFloat

/-- `DQNFromConfig.__init__`: the primary constructor, transcribed
statement by statement from the source. -/
def DQNFromConfig (environment_spec : EnvironmentSpec) (network : Network)
    (config : DQNConfig) : DQNAgent :=
  let reverb_replay := make_reverb_prioritized_nstep_replay environment_spec
    config.n_step config.batch_size config.max_replay_size
    config.min_replay_size config.priority_exponent config.discount
  let optimizer := Optimizer.chain
    [Optimizer.clip_by_global_norm config.max_gradient_norm,
     Optimizer.adam config.learning_rate]
  let learner : DQNLearner := {
    network := network
    obs_spec := environment_spec.observations
    rng := { seed := config.seed }
    optimizer := optimizer
    discount := config.discount
    importance_sampling_exponent := config.importance_sampling_exponent
    target_update_period := config.target_update_period
    iterator := reverb_replay.data_iterator
    replay_client := reverb_replay.client }
  let policy := fun (params : List ℚ) (key : RNGKey) (observation : List ℚ) =>
    epsilon_greedy_sample config.epsilon key (network.apply params observation)
  let actor : FeedForwardActor := {
    policy := policy
    rng := { seed := config.seed }
    variable_client := { learner := learner, key := "" }
    adder := reverb_replay.adder }
  { server := reverb_replay.server
    actor := actor
    learner := learner
    min_observations := max config.batch_size config.min_replay_size
    observations_per_step :=
      PyFloat.div (PyFloat.val (config.batch_size : ℚ)) config.samples_per_insert }

/-- The flat keyword arguments of the legacy constructor `DQN.__init__`, with
their declared defaults.  Note the parameter list has no `max_gradient_norm`
argument. -/
structure LegacyArgs where
  batch_size : Int := 256
  prefetch_size : Int := 4
  target_update_period : Int := 100
  samples_per_insert : PyFloat := PyFloat.val (1/2)
  min_replay_size : Int := 1000
  max_replay_size : Int := 1000000
  importance_sampling_exponent : PyFloat := PyFloat.val (1/5)
  priority_exponent : PyFloat := PyFloat.val (3/5)
  n_step : Int := 5
  epsilon : PyFloat := PyFloat.val (1/20)
  learning_rate : PyFloat := PyFloat.val (1/1000)
  discount : PyFloat := PyFloat.val (99/100)
  seed : Int := 1
deriving DecidableEq

/-- The configuration record the legacy constructor packs its keyword
arguments into: `DQNConfig(batch_size=batch_size, ...)` with exactly the
fields listed in the source; the unlisted field `max_gradient_norm` keeps its
dataclass default. -/
def DQN.config_of_args (a : LegacyArgs) : DQNConfig :=
  { batch_size := a.batch_size
    prefetch_size := a.prefetch_size
    target_update_period := a.target_update_period
    samples_per_insert := a.samples_per_insert
    min_replay_size := a.min_replay_size
    max_replay_size := a.max_replay_size
    importance_sampling_exponent := a.importance_sampling_exponent
    priority_exponent := a.priority_exponent
    n_step := a.n_step
    epsilon := a.epsilon
    learning_rate := a.learning_rate
    discount := a.discount
    seed := a.seed }

/-- `DQN.__init__`: the legacy constructor, which builds the configuration
record from its keyword arguments and delegates to the primary constructor. -/
def DQN (environment_spec : EnvironmentSpec) (network : Network)
    (a : LegacyArgs) : DQNAgent :=
  let config : DQNConfig := {
    batch_size := a.batch_size
    prefetch_size := a.prefetch_size
    target_update_period := a.target_update_period
    samples_per_insert := a.samples_per_insert
    min_replay_size := a.min_replay_size
    max_replay_size := a.max_replay_size
    importance_sampling_exponent := a.importance_sampling_exponent
    priority_exponent := a.priority_exponent
    n_step := a.n_step
    epsilon := a.epsilon
    learning_rate := a.learning_rate
    discount := a.discount
    seed := a.seed }
  DQNFromConfig environment_spec network config

/-- A concrete environment specification for witnesses. -/
def envW : EnvironmentSpec := {}

/-- A concrete network for witnesses: three actions, action values
`[1, 3, 2]` regardless of parameters and observation. -/
def netW : Network := { apply := fun _ _ => [1, 3, 2] }

/-- A concrete rng draw for witnesses: `u = 0`. -/
def keyW : RNGKey := { u := 0, r := 0 }

/-- A concrete configuration with `epsilon = 0` for the deterministic-limit
witness. -/
def cfgEpsZero : DQNConfig := { epsilon := PyFloat.val 0 }

theorem le_listMax {v : ℚ} : ∀ {l : List ℚ}, v ∈ l → v ≤ listMax l
  | [], hv => absurd hv (List.not_mem_nil v)
  | [x], hv => by
      rcases List.mem_singleton.mp hv with rfl
      simp [listMax]
  | x :: y :: ys, hv => by
      rcases List.mem_cons.mp hv with rfl | h
      · simp [listMax]
      · calc v ≤ listMax (y :: ys) := le_listMax h
          _ ≤ listMax (x :: y :: ys) := by
              rw [listMax]
              exact le_max_right _ _

theorem listArgmax_lt_length : ∀ {l : List ℚ}, l ≠ [] → listArgmax l < l.length := by
  intro l h
  induction l with
  | nil => exact absurd rfl h
  | cons x xs ih =>
    by_cases hc : xs = [] ∨ listMax xs ≤ x
    · simp [listArgmax, hc]
    · push_neg at hc
      rw [listArgmax, if_neg (by push_neg; exact hc)]
      simpa using ih hc.1

theorem getD_listArgmax : ∀ {l : List ℚ}, l ≠ [] → l.getD (listArgmax l) 0 = listMax l := by
  intro l h
  induction l with
  | nil => exact absurd rfl h
  | cons x xs ih =>
    cases xs with
    | nil => simp [listArgmax, listMax]
    | cons y ys =>
      by_cases hc : listMax (y :: ys) ≤ x
      · rw [listArgmax, if_pos (Or.inr hc)]
        simp [listMax, max_eq_left hc]
      · rw [listArgmax, if_neg (by simp [hc])]
        rw [List.getD_cons_succ, ih (by simp)]
        rw [listMax, max_eq_right (le_of_lt (not_le.mp hc))]

/-- Claim C1: for every configuration, the agent constructed by
`DQNFromConfig` has `min_observations = max(batch_size, min_replay_size)`;
in particular `batch_size = 32`, `min_replay_size = 1000` gives `1000`. -/
theorem dqn_min_observations :
    (∀ (e : EnvironmentSpec) (n : Network) (c : DQNConfig),
      (DQNFromConfig e n c).min_observations
        = max c.batch_size c.min_replay_size) ∧
    (DQNFromConfig envW netW
        { batch_size := 32, min_replay_size := 1000 }).min_observations = 1000 :=
  ⟨fun _ _ _ => rfl, by decide⟩

/-- Claim C2: for every configuration with a finite non-zero
`samples_per_insert`, the constructed agent has
`observations_per_step = batch_size / samples_per_insert`. -/
theorem dqn_observations_per_step (e : EnvironmentSpec) (n : Network)
    (c : DQNConfig) (q : ℚ) (hq : c.samples_per_insert = PyFloat.val q)
    (_hq0 : q ≠ 0) :
    (DQNFromConfig e n c).observations_per_step
      = PyFloat.val ((c.batch_size : ℚ) / q) := by
  simp [DQNFromConfig, hq, PyFloat.div]

/-- Witness for C2 at the spec's example: `batch_size = 256` and
`samples_per_insert = 0.5` (the defaults) give `observations_per_step = 512`. -/
theorem dqn_observations_per_step_check :
    ({} : DQNConfig).samples_per_insert = PyFloat.val (1/2) ∧ (1/2 : ℚ) ≠ 0 ∧
    (DQNFromConfig envW netW {}).observations_per_step = PyFloat.val 512 := by
  refine ⟨rfl, by norm_num, ?_⟩
  have h := dqn_observations_per_step envW netW {} (1/2) rfl (by norm_num)
  rw [h]
  norm_num

/-- Claim C3: the legacy constructor `DQN` builds, for every set of keyword
values, the same agent as `DQNFromConfig` applied to the equivalent
configuration record. -/
theorem dqn_legacy_matches_primary :
    ∀ (e : EnvironmentSpec) (n : Network) (a : LegacyArgs),
      DQN e n a = DQNFromConfig e n (DQN.config_of_args a) :=
  fun _ _ _ => rfl

/-- Claim C4: for every configuration, the learner's data iterator and
replay client and the actor's adder are all views of the one replay server
created by the construction, and the actor's variable client points at the
constructed learner. -/
theorem dqn_shared_replay_and_variable_client :
    ∀ (e : EnvironmentSpec) (n : Network) (c : DQNConfig),
      (DQNFromConfig e n c).learner.iterator.server = (DQNFromConfig e n c).server ∧
      (DQNFromConfig e n c).learner.replay_client.server = (DQNFromConfig e n c).server ∧
      (DQNFromConfig e n c).actor.adder.server = (DQNFromConfig e n c).server ∧
      (DQNFromConfig e n c).actor.variable_client.learner = (DQNFromConfig e n c).learner :=
  fun _ _ _ => ⟨rfl, rfl, rfl, rfl⟩

/-- Claim C5: with `epsilon = 0` the constructed policy closure selects an
index of the action-value vector attaining its maximum (the argmax), for
every parameter set, valid rng draw and observation. -/
theorem dqn_policy_epsilon_zero_argmax (e : EnvironmentSpec) (n : Network)
    (c : DQNConfig) (params : List ℚ) (key : RNGKey) (observation : List ℚ)
    (heps : c.epsilon = PyFloat.val 0) (hu : 0 ≤ key.u)
    (hne : n.apply params observation ≠ []) :
    (DQNFromConfig e n c).actor.policy params key observation
        < (n.apply params observation).length ∧
    ∀ v ∈ n.apply params observation,
      v ≤ (n.apply params observation).getD
            ((DQNFromConfig e n c).actor.policy params key observation) 0 := by
  have hlt : ¬ key.u < 0 := not_lt.mpr hu
  have hpol : (DQNFromConfig e n c).actor.policy params key observation
      = listArgmax (n.apply params observation) := by
    simp [DQNFromConfig, epsilon_greedy_sample, heps, PyFloat.lt, hlt]
  rw [hpol]
  refine ⟨listArgmax_lt_length hne, fun v hv => ?_⟩
  rw [getD_listArgmax hne]
  exact le_listMax hv

/-- Witness for C5 at a concrete network with action values `[1, 3, 2]`. -/
theorem dqn_policy_epsilon_zero_argmax_check :
    cfgEpsZero.epsilon = PyFloat.val 0 ∧ 0 ≤ keyW.u ∧ netW.apply [] [] ≠ [] ∧
    ((DQNFromConfig envW netW cfgEpsZero).actor.policy [] keyW []
        < (netW.apply [] []).length ∧
     ∀ v ∈ netW.apply [] [],
       v ≤ (netW.apply [] []).getD
             ((DQNFromConfig envW netW cfgEpsZero).actor.policy [] keyW []) 0) :=
  ⟨rfl, le_refl 0, by simp [netW],
    dqn_policy_epsilon_zero_argmax envW netW cfgEpsZero [] keyW [] rfl
      (le_refl 0) (by simp [netW])⟩

/-- Claim C6: for every configuration, the optimizer handed to the learner is
the chain that first clips by `max_gradient_norm` and then applies Adam with
`learning_rate`, in that order. -/
theorem dqn_optimizer_chain :
    ∀ (e : EnvironmentSpec) (n : Network) (c : DQNConfig),
      (DQNFromConfig e n c).learner.optimizer
        = Optimizer.chain
            [Optimizer.clip_by_global_norm c.max_gradient_norm,
             Optimizer.adam c.learning_rate] :=
  fun _ _ _ => rfl

/-- Counterexample to claim C7: `DQNConfig` is a plain (non-frozen) dataclass,
so attribute assignment through its public interface succeeds and changes the
field, contradicting "no mutation of a field is possible through its public
interface". -/
theorem dqnconfig_mutable_cex :
    DQNConfig.set_epsilon {} (PyFloat.val 1)
        = some { epsilon := PyFloat.val 1 } ∧
    ({ epsilon := PyFloat.val 1 } : DQNConfig) ≠ ({} : DQNConfig) :=
  ⟨rfl, by norm_num [DQNConfig.mk.injEq, PyFloat.val.injEq]⟩

/-- Claim C7 (amended): the dataclass is declared with `frozen=False`, so
attribute assignment can mutate any field; the file's own code performs no
such assignment, only construction and reads. -/
theorem dqnconfig_not_frozen :
    DQNConfig.dataclass_frozen = false ∧
    ∀ (c : DQNConfig) (v : PyFloat),
      DQNConfig.set_epsilon c v = some { c with epsilon := v } :=
  ⟨rfl, fun _ _ => rfl⟩

/-- Counterexample to claim C8: no assignment of the legacy constructor's
keyword arguments can produce a configuration with `max_gradient_norm = 1.0`,
because the legacy parameter list has no `max_gradient_norm` argument. -/
theorem legacy_cannot_set_max_gradient_norm :
    ¬ ∃ a : LegacyArgs,
      (DQN.config_of_args a).max_gradient_norm = PyFloat.val 1 := by
  rintro ⟨a, h⟩
  simp [DQN.config_of_args] at h

/-- Claim C8 (amended): the legacy constructor accepts every `DQNConfig`
field except `max_gradient_norm` as a keyword argument with the same default
(so default arguments produce the default configuration), and the
configuration it builds always keeps `max_gradient_norm` at its dataclass
default `np.inf`. -/
theorem legacy_args_cover_other_fields :
    DQN.config_of_args {} = ({} : DQNConfig) ∧
    ∀ a : LegacyArgs,
      (DQN.config_of_args a).batch_size = a.batch_size ∧
      (DQN.config_of_args a).prefetch_size = a.prefetch_size ∧
      (DQN.config_of_args a).target_update_period = a.target_update_period ∧
      (DQN.config_of_args a).samples_per_insert = a.samples_per_insert ∧
      (DQN.config_of_args a).min_replay_size = a.min_replay_size ∧
      (DQN.config_of_args a).max_replay_size = a.max_replay_size ∧
      (DQN.config_of_args a).importance_sampling_exponent
        = a.importance_sampling_exponent ∧
      (DQN.config_of_args a).priority_exponent = a.priority_exponent ∧
      (DQN.config_of_args a).n_step = a.n_step ∧
      (DQN.config_of_args a).epsilon = a.epsilon ∧
      (DQN.config_of_args a).learning_rate = a.learning_rate ∧
      (DQN.config_of_args a).discount = a.discount ∧
      (DQN.config_of_args a).seed = a.seed ∧
      (DQN.config_of_args a).max_gradient_norm = PyFloat.inf :=
  ⟨rfl, fun _ =>
    ⟨rfl, rfl, rfl, rfl, rfl, rfl, rfl, rfl, rfl, rfl, rfl, rfl, rfl, rfl⟩⟩

/-- Claim C9: two configurations differing only in `prefetch_size` produce
identical agents; the field is read by no part of the construction. -/
theorem dqn_prefetch_size_no_effect :
    ∀ (e : EnvironmentSpec) (n : Network) (c : DQNConfig) (p : Int),
      DQNFromConfig e n { c with prefetch_size := p } = DQNFromConfig e n c :=
  fun _ _ _ _ => rfl

/-- Claim C10: for every configuration, the learner's and the actor's
random-number sequences are both initialized from the single seed
`config.seed`. -/
theorem dqn_rngs_from_config_seed :
    ∀ (e : EnvironmentSpec) (n : Network) (c : DQNConfig),
      (DQNFromConfig e n c).learner.rng = PRNGSequence.mk c.seed ∧
      (DQNFromConfig e n c).actor.rng = PRNGSequence.mk c.seed :=
  fun _ _ _ => ⟨rfl, rfl⟩
